import Mathlib

/-!
Gerador de eBooks AI: client controller (`main.js`)

A shallow embedding of the page controller of `src/main.js`: the label
lookups, the progress simulation, and the event handlers acting on an
explicit record of the DOM regions and of the two script variables
`currentDocId` / `currentFilePath`.

Conventions of the embedding

* `style.display` of a region is a `Bool`: `true` for `'block'`, `false`
  for `'none'`.
* `null` script variables are `Option.none`.
* `fetch` is split in two: the handler that issues the request appends it
  to the `requests` log of the state; the resolution of the promise chain
  is a separate event carrying a `Response`.
* `alert` calls are appended to the `alerts` log.
* `Math.random() * 10` is an exact rational number (the increment of a
  tick); the rounding of binary floating point is not modelled.
-/

namespace MainJs

/-! ## Label lookups (lines 278-303) -/

/-- The value of a property read `table[key]` on an object literal holding
string values: an own string value, or a member inherited from
`Object.prototype` (a function, or the prototype itself for `__proto__`),
named by its key. -/
inductive Label where
  | text (s : String)
  | inherited (name : String)
  deriving DecidableEq, Repr

/-- Property names every object literal inherits from `Object.prototype`
in a browser. -/
def objectPrototypeKeys : List String :=
  ["constructor", "__defineGetter__", "__defineSetter__", "hasOwnProperty",
   "__lookupGetter__", "__lookupSetter__", "isPrototypeOf",
   "propertyIsEnumerable", "toString", "valueOf", "__proto__",
   "toLocaleString"]

/-- Property read `table[key]`: own properties first, then the prototype;
`none` is `undefined`. -/
def getProperty (table : List (String × String)) (key : String) : Option Label :=
  match table.lookup key with
  | some v => some (Label.text v)
  | none => if key ∈ objectPrototypeKeys then some (Label.inherited key) else none

/-- JavaScript truthiness of a looked-up value: `undefined` and the empty
string are falsy, inherited members (functions, objects) are truthy. -/
def truthy : Option Label → Bool
  | none => false
  | some (Label.text s) => s != ""
  | some (Label.inherited _) => true

/-- The expression `table[key] || key`. -/
def lookupOr (table : List (String × String)) (key : String) : Label :=
  let v := getProperty table key
  if truthy v then v.getD (Label.text key) else Label.text key

/-- The object `types` of `getDocTypeName` (lines 279-284). -/
def types : List (String × String) :=
  [("ebook", "eBook"),
   ("guia_pratico", "Guia Prático"),
   ("dicas", "Dicas"),
   ("documento_oficial", "Documento Oficial")]

/-- The object `models` of `getAIModelName` (lines 289-293). -/
def models : List (String × String) :=
  [("openai", "OpenAI (GPT)"),
   ("anthropic", "Anthropic (Claude)"),
   ("gemini", "Google Gemini")]

/-- The object `languages` of `getLanguageName` (lines 298-301). -/
def languages : List (String × String) :=
  [("pt-BR", "Português"),
   ("en-US", "Inglês")]

/-- The function `getDocTypeName(docType)`: `types[docType] || docType`. -/
def getDocTypeName (docType : String) : Label := lookupOr types docType

/-- The function `getAIModelName(aiModel)`: `models[aiModel] || aiModel`. -/
def getAIModelName (aiModel : String) : Label := lookupOr models aiModel

/-- The function `getLanguageName(language)`: `languages[language] || language`. -/
def getLanguageName (language : String) : Label := lookupOr languages language

/-! ## Data exchanged with the service -/

/-- A document record as the service returns it (the fields the script
reads: lines 89-99 and 174-185). -/
structure Document where
  id : String
  title : String
  theme : String
  doc_type : String
  ai_model : String
  language : String
  page_count : Nat
  quality : String
  file_path : String
  created_at : String
  deriving DecidableEq, Repr

/-- The object `formData` of lines 63-71, read from the form controls;
`page_count` is the result of `parseInt` (`none` for `NaN`). -/
structure FormData where
  title : String
  theme : String
  ai_model : String
  doc_type : String
  page_count : Option Int
  language : String
  quality : String
  deriving DecidableEq, Repr

/-- A scalar JSON value. -/
inductive Atom where
  | null
  | bool (b : Bool)
  | num (n : Int)
  | str (s : String)
  deriving DecidableEq, Repr

/-- A parsed JSON body: a scalar, an object of scalar members, or an array
of document records. -/
inductive Json where
  | atom (a : Atom)
  | obj (fields : List (String × Atom))
  | arr (docs : List Document)
  deriving DecidableEq, Repr

/-- How a `fetch` promise settles: the request itself fails, or a response
arrives with its `ok` flag (status 2xx) and a body that `response.json()`
parses (`some`) or rejects (`none`). -/
inductive Response (α : Type) where
  | networkError
  | response (ok : Bool) (body : Option α)
  deriving DecidableEq, Repr

/-- A `fetch` call: method, URL and, for the generation call, the posted
form data. -/
structure Request where
  method : String
  url : String
  body : Option FormData
  deriving DecidableEq, Repr

/-! ## Page state -/

/-- The two tabs of the page; `tabs[0]` is the generator tab (comment of
line 217), the other one has `data-tab="history"` (line 44). -/
inductive Tab where
  | generator
  | history
  deriving DecidableEq, Repr

/-- One `setInterval` started by `simulateProgress`: its local variable
`width` and whether `clearInterval` has been called on it. -/
structure Timer where
  width : ℚ
  cleared : Bool
  deriving DecidableEq, Repr

/-- One table row appended to `#history-items` (lines 171-191), given by
the values interpolated into the template assigned to its `innerHTML`:
the four cell texts, the text after `href="` of the download link, and
the texts put between the quotes of `data-path` and `data-id`. The record
holds the markup as the script writes it; what the HTML parser makes of
it is not part of the record. -/
structure Row where
  title : String
  docType : Label
  aiModel : Label
  createdAt : String
  downloadHref : String
  dataPath : String
  dataId : String
  deriving DecidableEq, Repr

/-- The text fields of the result panel (lines 93-99). -/
structure ResultPanel where
  title : String
  theme : String
  type : Label
  size : Nat
  ai : Label
  language : Label
  date : String
  deriving DecidableEq, Repr

/-- The DOM regions the script writes, its two variables, its timers, and
the logs of the requests it has issued and the alerts it has shown. -/
structure State where
  activeTab : Tab
  generatorForm : Bool
  generationStatus : Bool
  generationResult : Bool
  previewContainer : Bool
  deleteModal : Bool
  pdfPreviewSrc : Option String
  downloadHref : Option String
  resultPanel : Option ResultPanel
  currentDocId : Option String
  currentFilePath : Option String
  historyItems : List Row
  historyEmpty : Bool
  historyTable : Bool
  timers : List Timer
  progressWidth : Option ℚ
  progressText : Option Int
  requests : List Request
  alerts : List String
  deriving DecidableEq, Repr

/-- What the markup (not part of the script) fixes before the script runs:
the tab shown first and the initial visibility of the regions. -/
structure Markup where
  activeTab : Tab
  generatorForm : Bool
  generationStatus : Bool
  generationResult : Bool
  previewContainer : Bool
  deleteModal : Bool
  historyEmpty : Bool
  historyTable : Bool
  deriving DecidableEq, Repr

/-- Truthiness of a script variable holding `null` or a string. -/
def truthyVar : Option String → Bool
  | none => false
  | some s => s != ""

/-! ## Helper functions of the script (lines 151-276) -/

/-- The function `loadHistory()` up to the `fetch` call (line 152). -/
def loadHistory (s : State) : State :=
  { s with requests := s.requests ++ [⟨"GET", "/api/documents", none⟩] }

/-- The template values of the row built for one document (lines
173-189): each field is the expression the template interpolates. -/
def historyRow (doc : Document) : Row :=
  { title := doc.title
    docType := getDocTypeName doc.doc_type
    aiModel := getAIModelName doc.ai_model
    createdAt := doc.created_at
    downloadHref := "/download/" ++ doc.file_path
    dataPath := doc.file_path
    dataId := doc.id }

/-- The test `data.length === 0` (line 162) on a parsed body other than
`null`. -/
def lengthIsZero : Json → Bool
  | Json.arr docs => docs.isEmpty
  | Json.atom (Atom.str s) => s == ""
  | Json.atom _ => false
  | Json.obj fields => fields.lookup "length" == some (Atom.num 0)

/-- The `.catch` handler of `loadHistory` (lines 210-213). -/
def historyFailed (s : State) : State :=
  { s with alerts := s.alerts ++ ["Ocorreu um erro ao carregar o histórico de documentos."] }

/-- The promise chain of `loadHistory` (lines 153-213) once the `fetch`
settles. The chain never reads `response.ok`: every response whose body
parses reaches the `data` handler. -/
def historyResolved (s : State) (r : Response Json) : State :=
  match r with
  | Response.networkError => historyFailed s
  | Response.response _ none => historyFailed s
  | Response.response _ (some data) =>
    let s1 := { s with historyItems := [] }
    match data with
    | Json.atom Atom.null => historyFailed s1
    | _ =>
      if lengthIsZero data then
        { s1 with historyEmpty := true, historyTable := false }
      else
        let s2 := { s1 with historyEmpty := false, historyTable := true }
        match data with
        | Json.arr docs => { s2 with historyItems := docs.map historyRow }
        | _ => historyFailed s2

/-- The click handler of a tab (lines 28-47). -/
def tabClick (s : State) (t : Tab) : State :=
  let s1 := { s with activeTab := t }
  if t = Tab.history then loadHistory s1 else s1

/-- The function `previewDocument(path)` (lines 216-229). -/
def previewDocument (s : State) (path : String) : State :=
  let s1 := tabClick s Tab.generator
  { s1 with
    pdfPreviewSrc := some ("/preview/" ++ path)
    previewContainer := true
    generatorForm := false
    generationStatus := false
    generationResult := false }

/-- The function `showDeleteConfirmation(id)` (lines 231-234). -/
def showDeleteConfirmation (s : State) (id : String) : State :=
  { s with currentDocId := some id, deleteModal := true }

/-- The function `deleteDocument(id)` up to the `fetch` call (lines 237-239). -/
def deleteDocument (s : State) (id : String) : State :=
  { s with requests := s.requests ++ [⟨"DELETE", "/api/documents/" ++ id, none⟩] }

/-- The promise chain of `deleteDocument` (lines 240-260) once the `fetch`
settles. -/
def deleteResolved (s : State) (r : Response Json) : State :=
  match r with
  | Response.response true (some _) =>
    let s1 := loadHistory { s with deleteModal := false }
    { s1 with alerts := s1.alerts ++ ["Documento excluído com sucesso!"] }
  | _ =>
    { s with
      alerts := s.alerts ++ ["Ocorreu um erro ao excluir o documento."]
      deleteModal := false }

/-- The function `simulateProgress()` (lines 263-276): a new interval whose local
`width` is `0`. -/
def simulateProgress (s : State) : State :=
  { s with timers := s.timers ++ [⟨0, false⟩] }

/-- One run of the interval callback (lines 267-274) on the timer's own
variable; `inc` is `Math.random() * 10`. A cleared interval does not fire
any more. -/
def Timer.tick (t : Timer) (inc : ℚ) : Timer :=
  if t.cleared then t
  else if t.width ≥ 90 then { t with cleared := true }
  else
    let w := t.width + inc
    { t with width := if w > 90 then 90 else w }

/-- The callback of timer `i` fires: the timer's variable is updated and,
in the branch of lines 270-273, the progress bar is written. -/
def tick (s : State) (i : Nat) (inc : ℚ) : State :=
  match s.timers.get? i with
  | none => s
  | some t =>
    if t.cleared then s
    else if t.width ≥ 90 then { s with timers := s.timers.set i (t.tick inc) }
    else
      { s with
        timers := s.timers.set i (t.tick inc)
        progressWidth := some (t.tick inc).width
        progressText := some ⌊(t.tick inc).width + 1 / 2⌋ }

/-- The values of `width` after each of the ticks `incs` of one timer. -/
def progressValues : Timer → List ℚ → List ℚ
  | _, [] => []
  | t, inc :: rest => (t.tick inc).width :: progressValues (t.tick inc) rest

/-- The timer `simulateProgress` starts: `width = 0`, not cleared. -/
def newTimer : Timer := ⟨0, false⟩

/-! ## Event handlers (lines 51-148) -/

/-- The submit handler of the form up to the `fetch` call (lines 51-80).
It tests nothing before acting. -/
def submit (s : State) (f : FormData) : State :=
  let s1 := { s with generatorForm := false, generationStatus := true, generationResult := false }
  let s2 := simulateProgress s1
  { s2 with requests := s2.requests ++ [⟨"POST", "/api/generate", some f⟩] }

/-- The `data` handler of the generation call (lines 87-107). -/
def generateSucceeded (s : State) (data : Document) : State :=
  { s with
    currentDocId := some data.id
    currentFilePath := some data.file_path
    resultPanel := some
      { title := data.title
        theme := data.theme
        type := getDocTypeName data.doc_type
        size := data.page_count
        ai := getAIModelName data.ai_model
        language := getLanguageName data.language
        date := data.created_at }
    downloadHref := some ("/download/" ++ data.file_path)
    generationStatus := false
    generationResult := true }

/-- The `.catch` handler of the generation call (lines 108-115). -/
def generateFailed (s : State) : State :=
  { s with
    alerts := s.alerts ++ ["Ocorreu um erro ao gerar o documento. Por favor, tente novamente."]
    generationStatus := false
    generatorForm := true }

/-- The promise chain of the generation call (lines 81-115) once the
`fetch` settles. -/
def generateResolved (s : State) (r : Response Document) : State :=
  match r with
  | Response.response true (some data) => generateSucceeded s data
  | _ => generateFailed s

/-- The click handler of the preview button (lines 119-127). -/
def previewBtnClick (s : State) : State :=
  if truthyVar s.currentFilePath then
    { s with
      pdfPreviewSrc := some ("/preview/" ++ s.currentFilePath.getD "")
      previewContainer := true }
  else s

/-- The click handlers that close the modal (lines 130-136). -/
def closeModalClick (s : State) : State :=
  { s with deleteModal := false }

/-- The click handler of the window (lines 138-142); `onModal` tells
whether the target is the modal backdrop. -/
def windowClick (s : State) (onModal : Bool) : State :=
  if onModal then { s with deleteModal := false } else s

/-- The click handler of the confirm button (lines 144-148). -/
def confirmDeleteClick (s : State) : State :=
  if truthyVar s.currentDocId then deleteDocument s (s.currentDocId.getD "") else s

/-- The script body run on `DOMContentLoaded` (lines 20-24) over the
markup `m`. -/
def pageLoad (m : Markup) : State :=
  loadHistory
    { activeTab := m.activeTab
      generatorForm := m.generatorForm
      generationStatus := m.generationStatus
      generationResult := m.generationResult
      previewContainer := m.previewContainer
      deleteModal := m.deleteModal
      pdfPreviewSrc := none
      downloadHref := none
      resultPanel := none
      currentDocId := none
      currentFilePath := none
      historyItems := []
      historyEmpty := m.historyEmpty
      historyTable := m.historyTable
      timers := []
      progressWidth := none
      progressText := none
      requests := []
      alerts := [] }

/-- Everything that can make the script run after page load. A click on
a button of a history row carries what `getAttribute` returns for that
button (lines 197 and 204): `path` for `data-path`, `id` for `data-id`. -/
inductive Event where
  | tabClick (t : Tab)
  | submit (f : FormData)
  | generateResolved (r : Response Document)
  | previewBtnClick
  | closeModalClick
  | cancelDeleteClick
  | windowClick (onModal : Bool)
  | confirmDeleteClick
  | historyResolved (r : Response Json)
  | rowPreviewClick (path : String)
  | rowDeleteClick (id : String)
  | deleteResolved (r : Response Json)
  | tick (i : Nat) (inc : ℚ)

/-- The handler the script runs for an event. The listeners of the row
buttons (lines 195-207) pass the attribute they read to
`previewDocument` and `showDeleteConfirmation`. -/
def handle (s : State) : Event → State
  | Event.tabClick t => tabClick s t
  | Event.submit f => submit s f
  | Event.generateResolved r => generateResolved s r
  | Event.previewBtnClick => previewBtnClick s
  | Event.closeModalClick => closeModalClick s
  | Event.cancelDeleteClick => closeModalClick s
  | Event.windowClick onModal => windowClick s onModal
  | Event.confirmDeleteClick => confirmDeleteClick s
  | Event.historyResolved r => historyResolved s r
  | Event.rowPreviewClick path => previewDocument s path
  | Event.rowDeleteClick id => showDeleteConfirmation s id
  | Event.deleteResolved r => deleteResolved s r
  | Event.tick i inc => tick s i inc

/-- The state after a sequence of events. -/
def run (s : State) (evs : List Event) : State := evs.foldl handle s

/-- Whether an event is a generation call settling otherwise than with a
2xx response carrying a document: the events the `.catch` handler of
lines 108-115 runs for. -/
def Event.isGenerateFailure : Event → Bool
  | Event.generateResolved (Response.response true (some _)) => false
  | Event.generateResolved _ => true
  | _ => false

/-- Whether an event is the callback of a progress timer. -/
def Event.isTick : Event → Bool
  | Event.tick _ _ => true
  | _ => false

/-- Whether an event is a submission of the form. -/
def Event.isSubmit : Event → Bool
  | Event.submit _ => true
  | _ => false

/-- The number of intervals started and not yet cleared. -/
def activeTimers (s : State) : Nat := (s.timers.filter fun t => !t.cleared).length

/-- The number of list requests (`GET /api/documents`) issued so far. -/
def listRequests (s : State) : Nat :=
  (s.requests.filter fun r => r.method == "GET" && r.url == "/api/documents").length

/-- The number of generation requests (`POST /api/generate`) issued so far. -/
def generateRequests (s : State) : Nat :=
  (s.requests.filter fun r => r.method == "POST" && r.url == "/api/generate").length

/-- A page whose markup shows the generator tab with the form and nothing
else. -/
def formPage : Markup :=
  { activeTab := Tab.generator
    generatorForm := true
    generationStatus := false
    generationResult := false
    previewContainer := false
    deleteModal := false
    historyEmpty := false
    historyTable := false }

/-- The document of Scenario A. -/
def docD1 : Document :=
  { id := "d1", title := "Guide", theme := "Cooking", doc_type := "ebook"
    ai_model := "openai", language := "pt-BR", page_count := 20
    quality := "high", file_path := "d1.pdf", created_at := "2024-01-01" }

/-- The history tab showing one row, for the document of Scenario A; no
request issued yet, no alert shown. -/
def historyPage : State :=
  { activeTab := Tab.history
    generatorForm := true
    generationStatus := false
    generationResult := false
    previewContainer := false
    deleteModal := false
    pdfPreviewSrc := none
    downloadHref := none
    resultPanel := none
    currentDocId := none
    currentFilePath := none
    historyItems := [historyRow docD1]
    historyEmpty := false
    historyTable := true
    timers := []
    progressWidth := none
    progressText := none
    requests := []
    alerts := [] }

/-- A page whose only timer has reached 90 and has been cleared. -/
def pageWithClearedTimer : State :=
  { historyPage with timers := [⟨90, true⟩] }

/-- The form data of Scenario A. -/
def formA : FormData :=
  { title := "Guide", theme := "Cooking", ai_model := "openai", doc_type := "ebook"
    page_count := some 20, language := "pt-BR", quality := "high" }

/-! ## Label lookups: results -/

/-- A key that is neither an own key of the table nor a name inherited from
`Object.prototype` is returned as its own label. -/
theorem lookupOr_fallback (table : List (String × String)) (key : String)
    (hown : table.lookup key = none) (hproto : key ∉ objectPrototypeKeys) :
    lookupOr table key = Label.text key := by
  simp [lookupOr, getProperty, hown, hproto, truthy]

/-- C5 (as stated, refuted): the keys `practical_guide`, `tips` and
`official_document` the specification lists for `doc_type` are not keys of
the table of `getDocTypeName`; the lookup returns them unchanged instead
of the labels "Guia Prático", "Dicas", "Documento Oficial". -/
theorem getDocTypeName_english_keys_unlabelled :
    getDocTypeName "practical_guide" = Label.text "practical_guide" ∧
    getDocTypeName "practical_guide" ≠ Label.text "Guia Prático" ∧
    getDocTypeName "tips" = Label.text "tips" ∧
    getDocTypeName "tips" ≠ Label.text "Dicas" ∧
    getDocTypeName "official_document" = Label.text "official_document" ∧
    getDocTypeName "official_document" ≠ Label.text "Documento Oficial" := by
  decide

/-- C5 (amended): `getDocTypeName` maps `ebook`, `guia_pratico`, `dicas`,
`documento_oficial` to "eBook", "Guia Prático", "Dicas", "Documento
Oficial"; `getAIModelName` maps `openai`, `anthropic`, `gemini` to "OpenAI
(GPT)", "Anthropic (Claude)", "Google Gemini"; `getLanguageName` maps
`pt-BR`, `en-US` to "Português", "Inglês". -/
theorem label_tables :
    getDocTypeName "ebook" = Label.text "eBook" ∧
    getDocTypeName "guia_pratico" = Label.text "Guia Prático" ∧
    getDocTypeName "dicas" = Label.text "Dicas" ∧
    getDocTypeName "documento_oficial" = Label.text "Documento Oficial" ∧
    getAIModelName "openai" = Label.text "OpenAI (GPT)" ∧
    getAIModelName "anthropic" = Label.text "Anthropic (Claude)" ∧
    getAIModelName "gemini" = Label.text "Google Gemini" ∧
    getLanguageName "pt-BR" = Label.text "Português" ∧
    getLanguageName "en-US" = Label.text "Inglês" := by
  decide

/-- C6 (the code at the failing input): `constructor` is not a key of any
of the three tables, yet each lookup finds the member every object literal
inherits under that name and returns it instead of the string
`constructor`; the key `unknown_x` of the specification does fall back to
itself. -/
theorem label_lookup_inherited_key :
    getDocTypeName "constructor" = Label.inherited "constructor" ∧
    getDocTypeName "constructor" ≠ Label.text "constructor" ∧
    getAIModelName "constructor" ≠ Label.text "constructor" ∧
    getLanguageName "constructor" ≠ Label.text "constructor" ∧
    types.lookup "constructor" = none ∧
    models.lookup "constructor" = none ∧
    languages.lookup "constructor" = none ∧
    getDocTypeName "unknown_x" = Label.text "unknown_x" := by
  decide

/-! ## History list: results -/

/-- The failure paths `loadHistory` does handle: when the request fails or
the body is not JSON, the rows and the two history regions stay as they
were and one alert is shown. -/
theorem historyResolved_rejected (s : State) (ok : Bool) :
    historyResolved s Response.networkError = historyFailed s ∧
    historyResolved s (Response.response ok none) = historyFailed s ∧
    (historyFailed s).historyItems = s.historyItems ∧
    (historyFailed s).alerts.length = s.alerts.length + 1 := by
  simp [historyResolved, historyFailed]

/-- C2 (the code at the failing input): with one row displayed, a list
response of status 500 whose body is the JSON object with the one member
`error` empties the rows before the error is shown, and a response of
status 500 whose body is the empty JSON array empties the rows, shows the
empty-state region and raises no alert at all. -/
theorem loadHistory_non2xx_clears_rows :
    (historyResolved
        historyPage
        (Response.response false (some (Json.obj [("error", Atom.str "x")])))).historyItems = [] ∧
    (historyResolved
        historyPage
        (Response.response false (some (Json.obj [("error", Atom.str "x")])))).alerts
      = ["Ocorreu um erro ao carregar o histórico de documentos."] ∧
    (historyResolved
        historyPage
        (Response.response false (some (Json.arr [])))).historyItems = [] ∧
    (historyResolved
        historyPage
        (Response.response false (some (Json.arr [])))).alerts = [] ∧
    (historyResolved
        historyPage
        (Response.response false (some (Json.arr [])))).historyEmpty = true := by
  decide

/-! ## Deletion: results -/

/-- Issuing a request that is not the list request leaves the number of
list requests unchanged. -/
theorem listRequests_deleteDocument (s : State) (id : String) :
    listRequests (deleteDocument s id) = listRequests s := by
  have h : ("DELETE" == "GET") = false := by decide
  simp [listRequests, deleteDocument, List.filter_append, List.filter_cons, h]

/-- The function `loadHistory` issues exactly one list request. -/
theorem listRequests_loadHistory (s : State) :
    listRequests (loadHistory s) = listRequests s + 1 := by
  simp [listRequests, loadHistory, List.filter_append]

/-- C3: for every id and every state in which the delete-confirmation modal
is open, `deleteDocument(id)` ends with the modal closed however the
request settles; when the request fails (network error, or a response that
is not 2xx, whatever its body) the history rows are unchanged and no list
request is issued; when it succeeds (a 2xx response carrying the JSON
acknowledgement) exactly one list request is issued. -/
theorem deleteDocument_outcomes (s : State) (id : String) (hopen : s.deleteModal = true) :
    (deleteDocument s id).deleteModal = true ∧
    (∀ r, (deleteResolved (deleteDocument s id) r).deleteModal = false) ∧
    ((deleteResolved (deleteDocument s id) Response.networkError).historyItems = s.historyItems ∧
      listRequests (deleteResolved (deleteDocument s id) Response.networkError)
        = listRequests s) ∧
    (∀ body,
      (deleteResolved (deleteDocument s id) (Response.response false body)).historyItems
        = s.historyItems ∧
      listRequests (deleteResolved (deleteDocument s id) (Response.response false body))
        = listRequests s) ∧
    (∀ ack,
      listRequests (deleteResolved (deleteDocument s id) (Response.response true (some ack)))
        = listRequests s + 1) := by
  have hd := listRequests_deleteDocument s id
  refine ⟨hopen, ?_, ⟨rfl, ?_⟩, ?_, ?_⟩
  · intro r
    rcases r with _ | ⟨ok, body⟩
    · rfl
    · cases ok <;> cases body <;> rfl
  · simpa [deleteResolved, listRequests] using hd
  · intro body
    refine ⟨rfl, ?_⟩
    simpa [deleteResolved, listRequests] using hd
  · intro ack
    have h1 := listRequests_loadHistory { deleteDocument s id with deleteModal := false }
    have h2 : listRequests { deleteDocument s id with deleteModal := false }
        = listRequests (deleteDocument s id) := rfl
    have h3 : listRequests (deleteResolved (deleteDocument s id) (Response.response true (some ack)))
        = listRequests (loadHistory { deleteDocument s id with deleteModal := false }) := rfl
    omega

/-- Witness of `deleteDocument_outcomes`: the modal opened for the row of
document `d1`. -/
theorem deleteDocument_outcomes_witness :
    (showDeleteConfirmation historyPage "d1").deleteModal = true ∧
    (deleteResolved (deleteDocument (showDeleteConfirmation historyPage "d1") "d1")
        (Response.response false none)).deleteModal = false ∧
    (deleteResolved (deleteDocument (showDeleteConfirmation historyPage "d1") "d1")
        (Response.response false none)).historyItems = [historyRow docD1] ∧
    listRequests (deleteResolved (deleteDocument (showDeleteConfirmation historyPage "d1") "d1")
        (Response.response true (some (Json.obj [])))) = 1 :=
  have h := deleteDocument_outcomes (showDeleteConfirmation historyPage "d1") "d1" rfl
  ⟨rfl, h.2.1 _, (h.2.2.2.1 none).1, h.2.2.2.2 (Json.obj [])⟩

/-- C9 (as stated, refuted): the result of document `d1` is displayed
(`currentDocId = "d1"`, `currentFilePath = "d1.pdf"`), its history row,
whose `data-id` is `d1`, is deleted through the modal and the DELETE
succeeds; afterwards both variables still refer to the deleted
document. -/
theorem confirmDelete_keeps_current_document :
    (run (pageLoad formPage)
      [Event.submit formA,
       Event.generateResolved (Response.response true (some docD1)),
       Event.tabClick Tab.history,
       Event.historyResolved (Response.response true (some (Json.arr [docD1])))]).historyItems.map
        Row.dataId = ["d1"] ∧
    (run (pageLoad formPage)
      [Event.submit formA,
       Event.generateResolved (Response.response true (some docD1)),
       Event.tabClick Tab.history,
       Event.historyResolved (Response.response true (some (Json.arr [docD1]))),
       Event.rowDeleteClick "d1",
       Event.confirmDeleteClick,
       Event.deleteResolved (Response.response true (some (Json.obj [])))]).currentDocId
      = some "d1" ∧
    (run (pageLoad formPage)
      [Event.submit formA,
       Event.generateResolved (Response.response true (some docD1)),
       Event.tabClick Tab.history,
       Event.historyResolved (Response.response true (some (Json.arr [docD1]))),
       Event.rowDeleteClick "d1",
       Event.confirmDeleteClick,
       Event.deleteResolved (Response.response true (some (Json.obj [])))]).currentFilePath
      = some "d1.pdf" ∧
    (run (pageLoad formPage)
      [Event.submit formA,
       Event.generateResolved (Response.response true (some docD1)),
       Event.tabClick Tab.history,
       Event.historyResolved (Response.response true (some (Json.arr [docD1]))),
       Event.rowDeleteClick "d1",
       Event.confirmDeleteClick,
       Event.deleteResolved (Response.response true (some (Json.obj [])))]).requests.getLast?
      = some ⟨"GET", "/api/documents", none⟩ := by
  refine ⟨?_, ?_, ?_, ?_⟩ <;> rfl

/-- C9 (amended): for every id X held by `currentDocId`, the confirm
button issues `DELETE /api/documents/X`, and after the successful response
the modal is closed, the list is requested again, and `currentDocId` and
`currentFilePath` are what they were before: the reference to X is not
cleared. -/
theorem confirmDelete_success (s : State) (X : String) (ack : Json)
    (hcur : s.currentDocId = some X) (hX : X ≠ "") :
    (confirmDeleteClick s).requests = s.requests ++ [⟨"DELETE", "/api/documents/" ++ X, none⟩] ∧
    (deleteResolved (confirmDeleteClick s) (Response.response true (some ack))).deleteModal
      = false ∧
    (deleteResolved (confirmDeleteClick s) (Response.response true (some ack))).requests
      = s.requests ++ [⟨"DELETE", "/api/documents/" ++ X, none⟩, ⟨"GET", "/api/documents", none⟩] ∧
    (deleteResolved (confirmDeleteClick s) (Response.response true (some ack))).currentDocId
      = some X ∧
    (deleteResolved (confirmDeleteClick s) (Response.response true (some ack))).currentFilePath
      = s.currentFilePath := by
  have ht : truthyVar (some X) = true := by simp [truthyVar, hX]
  simp [confirmDeleteClick, ht, hcur, deleteDocument, deleteResolved, loadHistory]

/-- Witness of `confirmDelete_success`: the modal opened for the row of
document `d1`. -/
theorem confirmDelete_success_witness :
    (deleteResolved (confirmDeleteClick (showDeleteConfirmation historyPage "d1"))
        (Response.response true (some (Json.obj [])))).currentDocId = some "d1" :=
  (confirmDelete_success (showDeleteConfirmation historyPage "d1") "d1" (Json.obj [])
    rfl (by decide)).2.2.2.1

/-! ## Submission: results -/

/-- C7 (as stated, refuted): while the generation status is visible a
second submit starts a second timer and dispatches a second POST, and
while the result is visible a submit hides the result and shows the
status. -/
theorem submit_outside_form_acts :
    (submit (pageLoad formPage) formA).generatorForm = false ∧
    (submit (pageLoad formPage) formA).generationStatus = true ∧
    generateRequests (submit (pageLoad formPage) formA) = 1 ∧
    generateRequests (submit (submit (pageLoad formPage) formA) formA) = 2 ∧
    (submit (pageLoad formPage) formA).timers.length = 1 ∧
    (submit (submit (pageLoad formPage) formA) formA).timers.length = 2 ∧
    (generateSucceeded (submit (pageLoad formPage) formA) docD1).generationResult = true ∧
    (submit (generateSucceeded (submit (pageLoad formPage) formA) docD1) formA).generationResult
      = false ∧
    (submit (generateSucceeded (submit (pageLoad formPage) formA) docD1) formA).generationStatus
      = true := by
  refine ⟨?_, ?_, ?_, ?_, ?_, ?_, ?_, ?_, ?_⟩ <;> decide

/-- C7 (amended): the submit handler tests nothing; from every state, also
one whose base view is not the form, it hides the form and the result,
shows the generation status, starts one more progress timer and dispatches
one more `POST /api/generate`; it leaves `currentDocId`, `currentFilePath`,
the preview overlay and the modal as they were. -/
theorem submit_unguarded (s : State) (f : FormData) :
    (submit s f).generatorForm = false ∧
    (submit s f).generationStatus = true ∧
    (submit s f).generationResult = false ∧
    (submit s f).timers = s.timers ++ [newTimer] ∧
    activeTimers (submit s f) = activeTimers s + 1 ∧
    (submit s f).requests = s.requests ++ [⟨"POST", "/api/generate", some f⟩] ∧
    generateRequests (submit s f) = generateRequests s + 1 ∧
    (submit s f).currentDocId = s.currentDocId ∧
    (submit s f).currentFilePath = s.currentFilePath ∧
    (submit s f).previewContainer = s.previewContainer ∧
    (submit s f).deleteModal = s.deleteModal := by
  simp [submit, simulateProgress, newTimer, activeTimers, generateRequests, List.filter_append]

/-! ## Preview: results -/

/-- C8 (as stated, refuted): with the form visible, `previewDocument`
hides the form; with the result visible, it hides the result. -/
theorem previewDocument_hides_base_view :
    (pageLoad formPage).generatorForm = true ∧
    (previewDocument (pageLoad formPage) "d1.pdf").generatorForm = false ∧
    (generateSucceeded (submit (pageLoad formPage) formA) docD1).generationResult = true ∧
    (previewDocument (generateSucceeded (submit (pageLoad formPage) formA) docD1)
      "d1.pdf").generationResult = false := by
  refine ⟨?_, ?_, ?_, ?_⟩ <;> decide

/-- C8 (amended): for every state and every path p, `previewDocument(p)`
makes the preview overlay visible with source "/preview/" followed by p,
switches to the generator tab and hides the form, the generation status
and the result; the preview button, when `currentFilePath` is a non-empty
p, makes the overlay visible with source "/preview/" followed by p and
leaves the three base views as they were. -/
theorem preview_effects (s : State) (p : String) :
    ((previewDocument s p).previewContainer = true ∧
      (previewDocument s p).pdfPreviewSrc = some ("/preview/" ++ p) ∧
      (previewDocument s p).activeTab = Tab.generator ∧
      (previewDocument s p).generatorForm = false ∧
      (previewDocument s p).generationStatus = false ∧
      (previewDocument s p).generationResult = false) ∧
    (s.currentFilePath = some p → p ≠ "" →
      (previewBtnClick s).previewContainer = true ∧
      (previewBtnClick s).pdfPreviewSrc = some ("/preview/" ++ p) ∧
      (previewBtnClick s).generatorForm = s.generatorForm ∧
      (previewBtnClick s).generationStatus = s.generationStatus ∧
      (previewBtnClick s).generationResult = s.generationResult) := by
  refine ⟨by simp [previewDocument, tabClick], ?_⟩
  intro hcur hp
  have ht : truthyVar (some p) = true := by simp [truthyVar, hp]
  simp [previewBtnClick, ht, hcur]

/-- Witness of `preview_effects`: the preview button on the result of
Scenario A. -/
theorem preview_effects_witness :
    (generateSucceeded (submit (pageLoad formPage) formA) docD1).currentFilePath = some "d1.pdf" ∧
    (previewBtnClick (generateSucceeded (submit (pageLoad formPage) formA) docD1)).pdfPreviewSrc
      = some ("/preview/" ++ "d1.pdf") ∧
    (previewBtnClick (generateSucceeded (submit (pageLoad formPage) formA) docD1)).generationResult
      = true :=
  have h := (preview_effects (generateSucceeded (submit (pageLoad formPage) formA) docD1)
    "d1.pdf").2 rfl (by decide)
  ⟨rfl, h.2.1, h.2.2.2.2⟩

/-! ## Generation: results -/

/-- The history handler never touches the form. -/
theorem historyResolved_generatorForm (s : State) (r : Response Json) :
    (historyResolved s r).generatorForm = s.generatorForm := by
  unfold historyResolved
  repeat' split
  all_goals rfl

/-- The history handler never touches the timers. -/
theorem historyResolved_timers (s : State) (r : Response Json) :
    (historyResolved s r).timers = s.timers := by
  unfold historyResolved
  repeat' split
  all_goals rfl

/-- The callback of a timer never touches the form. -/
theorem tick_generatorForm (s : State) (i : Nat) (inc : ℚ) :
    (tick s i inc).generatorForm = s.generatorForm := by
  unfold tick
  repeat' split
  all_goals rfl

/-- Only the `.catch` handler of the generation call shows the form: every
other handler leaves a hidden form hidden. -/
theorem handle_keeps_form_hidden (s : State) (e : Event)
    (he : e.isGenerateFailure = false) (hs : s.generatorForm = false) :
    (handle s e).generatorForm = false := by
  cases e with
  | tabClick t => cases t <;> simpa [handle, tabClick, loadHistory] using hs
  | submit f => rfl
  | generateResolved r =>
    rcases r with _ | ⟨ok, body⟩
    · simp [Event.isGenerateFailure] at he
    · cases ok <;> cases body <;> simp [Event.isGenerateFailure] at he
      simpa [handle, generateResolved, generateSucceeded] using hs
  | previewBtnClick =>
    simp only [handle, previewBtnClick]
    split <;> simpa using hs
  | closeModalClick => simpa [handle, closeModalClick] using hs
  | cancelDeleteClick => simpa [handle, closeModalClick] using hs
  | windowClick onModal => cases onModal <;> simpa [handle, windowClick] using hs
  | confirmDeleteClick =>
    simp only [handle, confirmDeleteClick]
    split
    · simpa [deleteDocument] using hs
    · exact hs
  | historyResolved r => simpa [handle, historyResolved_generatorForm] using hs
  | rowPreviewClick path => rfl
  | rowDeleteClick id => simpa [handle, showDeleteConfirmation] using hs
  | deleteResolved r =>
    rcases r with _ | ⟨ok, body⟩
    · simpa [handle, deleteResolved] using hs
    · cases ok <;> cases body <;> simpa [handle, deleteResolved, loadHistory] using hs
  | tick i inc => simpa [handle, tick_generatorForm] using hs

/-- A hidden form stays hidden along any events none of which is a failed
generation. -/
theorem run_keeps_form_hidden (evs : List Event) :
    ∀ s : State, (∀ e ∈ evs, e.isGenerateFailure = false) → s.generatorForm = false →
      (run s evs).generatorForm = false := by
  induction evs with
  | nil => intro s _ hs; exact hs
  | cons e rest ih =>
    intro s hall hs
    have he : e.isGenerateFailure = false := hall e (List.mem_cons_self _ _)
    have hrest : ∀ x ∈ rest, x.isGenerateFailure = false :=
      fun x hx => hall x (List.mem_cons_of_mem _ hx)
    exact ih (handle s e) hrest (handle_keeps_form_hidden s e he hs)

/-- C1 (as stated, refuted): two submits leave two generation calls
outstanding; the first one fails, which shows the form again, and the
second one, still outstanding, succeeds with the document of Scenario A:
after the success handler the form is visible beside the result. -/
theorem generate_success_beside_form :
    generateRequests (run (pageLoad formPage)
      [Event.submit formA,
       Event.submit formA,
       Event.generateResolved Response.networkError]) = 2 ∧
    (run (pageLoad formPage)
      [Event.submit formA,
       Event.submit formA,
       Event.generateResolved Response.networkError]).generatorForm = true ∧
    (run (pageLoad formPage)
      [Event.submit formA,
       Event.submit formA,
       Event.generateResolved Response.networkError,
       Event.generateResolved (Response.response true (some docD1))]).generatorForm = true ∧
    (run (pageLoad formPage)
      [Event.submit formA,
       Event.submit formA,
       Event.generateResolved Response.networkError,
       Event.generateResolved (Response.response true (some docD1))]).generationResult = true ∧
    (run (pageLoad formPage)
      [Event.submit formA,
       Event.submit formA,
       Event.generateResolved Response.networkError,
       Event.generateResolved (Response.response true (some docD1))]).generationStatus = false := by
  refine ⟨by decide, rfl, rfl, rfl, rfl⟩

/-- C1 (amended): for every controller state `t` and every document `d`
carried by a 2xx response, the success handler hides the status, shows
the result, leaves the visibility of the form as it was, sets
`currentDocId` and `currentFilePath` to `d.id` and `d.file_path` and the
download link to "/download/" followed by `d.file_path`; and when the
call is outstanding with no failed generation handled since the submit
that dispatched it (from any state `s`, through any events `evs`), the
form is hidden, so that the result is the only visible base view. -/
theorem generate_success_shows_result (t s : State) (f : FormData) (evs : List Event)
    (d : Document) :
    ((handle t (Event.generateResolved (Response.response true (some d)))).generatorForm
        = t.generatorForm ∧
      (handle t (Event.generateResolved (Response.response true (some d)))).generationStatus
        = false ∧
      (handle t (Event.generateResolved (Response.response true (some d)))).generationResult
        = true ∧
      (handle t (Event.generateResolved (Response.response true (some d)))).currentDocId
        = some d.id ∧
      (handle t (Event.generateResolved (Response.response true (some d)))).currentFilePath
        = some d.file_path ∧
      (handle t (Event.generateResolved (Response.response true (some d)))).downloadHref
        = some ("/download/" ++ d.file_path)) ∧
    ((∀ e ∈ evs, e.isGenerateFailure = false) →
      (handle (run (submit s f) evs)
        (Event.generateResolved (Response.response true (some d)))).generatorForm = false ∧
      (handle (run (submit s f) evs)
        (Event.generateResolved (Response.response true (some d)))).generationStatus = false ∧
      (handle (run (submit s f) evs)
        (Event.generateResolved (Response.response true (some d)))).generationResult = true ∧
      (handle (run (submit s f) evs)
        (Event.generateResolved (Response.response true (some d)))).currentDocId = some d.id ∧
      (handle (run (submit s f) evs)
        (Event.generateResolved (Response.response true (some d)))).currentFilePath
        = some d.file_path ∧
      (handle (run (submit s f) evs)
        (Event.generateResolved (Response.response true (some d)))).downloadHref
        = some ("/download/" ++ d.file_path)) := by
  refine ⟨⟨rfl, rfl, rfl, rfl, rfl, rfl⟩, ?_⟩
  intro hevs
  have hform : (run (submit s f) evs).generatorForm = false :=
    run_keeps_form_hidden evs (submit s f) hevs rfl
  refine ⟨?_, rfl, rfl, rfl, rfl, rfl⟩
  simpa [handle, generateResolved, generateSucceeded] using hform

/-- Witness of `generate_success_shows_result`: Scenario A, with a visit
to the history tab while the call is outstanding. -/
theorem generate_success_shows_result_witness :
    (∀ e ∈ [Event.tabClick Tab.history, Event.historyResolved (Response.response true (some (Json.arr []))),
        Event.tabClick Tab.generator], e.isGenerateFailure = false) ∧
    (handle (run (submit (pageLoad formPage) formA)
        [Event.tabClick Tab.history, Event.historyResolved (Response.response true (some (Json.arr []))),
          Event.tabClick Tab.generator])
      (Event.generateResolved (Response.response true (some docD1)))).generatorForm = false ∧
    (handle (run (submit (pageLoad formPage) formA)
        [Event.tabClick Tab.history, Event.historyResolved (Response.response true (some (Json.arr []))),
          Event.tabClick Tab.generator])
      (Event.generateResolved (Response.response true (some docD1)))).generationResult = true ∧
    (handle (run (submit (pageLoad formPage) formA)
        [Event.tabClick Tab.history, Event.historyResolved (Response.response true (some (Json.arr []))),
          Event.tabClick Tab.generator])
      (Event.generateResolved (Response.response true (some docD1)))).downloadHref
      = some ("/download/" ++ "d1.pdf") :=
  have hevs : ∀ e ∈ [Event.tabClick Tab.history,
      Event.historyResolved (Response.response true (some (Json.arr []))),
      Event.tabClick Tab.generator], e.isGenerateFailure = false := by
    intro e he
    simp only [List.mem_cons, List.mem_singleton, List.not_mem_nil, or_false] at he
    rcases he with rfl | rfl | rfl <;> rfl
  have h := (generate_success_shows_result (pageLoad formPage) (pageLoad formPage) formA _
    docD1).2 hevs
  ⟨hevs, h.1, h.2.2.1, h.2.2.2.2.2⟩

/-! ## Progress simulation: results -/

/-- One tick of a timer whose value is at most 90 does not lower the value
and keeps it at most 90, for a non-negative increment. -/
theorem Timer.tick_bounds (t : Timer) (inc : ℚ) (hinc : 0 ≤ inc) (ht : t.width ≤ 90) :
    t.width ≤ (t.tick inc).width ∧ (t.tick inc).width ≤ 90 := by
  unfold Timer.tick
  split
  · exact ⟨le_refl _, ht⟩
  · split
    · exact ⟨le_refl _, ht⟩
    · rename_i hlt
      have hlt90 : t.width < 90 := not_le.mp hlt
      dsimp only
      split
      · exact ⟨ht, le_refl _⟩
      · rename_i hle
        exact ⟨by linarith, not_lt.mp hle⟩

/-- From any timer whose value is at most 90, the values after the ticks
are non-decreasing, never below the starting value and never above 90. -/
theorem progressValues_bounds (incs : List ℚ) :
    ∀ t : Timer, t.width ≤ 90 → (∀ x ∈ incs, 0 ≤ x) →
      List.Pairwise (fun a b => a ≤ b) (t.width :: progressValues t incs) ∧
      ∀ v ∈ progressValues t incs, t.width ≤ v ∧ v ≤ 90 := by
  induction incs with
  | nil =>
    intro t _ _
    simp [progressValues]
  | cons inc rest ih =>
    intro t ht hall
    have hinc : 0 ≤ inc := hall inc (List.mem_cons_self _ _)
    have hrest : ∀ x ∈ rest, 0 ≤ x := fun x hx => hall x (List.mem_cons_of_mem _ hx)
    obtain ⟨hlo, hhi⟩ := Timer.tick_bounds t inc hinc ht
    obtain ⟨hpw, hbd⟩ := ih (t.tick inc) hhi hrest
    have hmem : ∀ v ∈ progressValues t (inc :: rest), t.width ≤ v ∧ v ≤ 90 := by
      intro v hv
      simp only [progressValues, List.mem_cons] at hv
      rcases hv with rfl | hv
      · exact ⟨hlo, hhi⟩
      · exact ⟨le_trans hlo (hbd v hv).1, (hbd v hv).2⟩
    refine ⟨?_, hmem⟩
    rw [List.pairwise_cons]
    refine ⟨fun v hv => (hmem v hv).1, ?_⟩
    simpa [progressValues] using hpw

/-- C4: for every sequence of tick increments each in [0, 10), the values
of one run of `simulateProgress`, starting from 0, are non-decreasing,
each is at least 0 and at most 90, hence below 100, and once a value is
90 every later one is 90. -/
theorem simulateProgress_values (incs : List ℚ) (hincs : ∀ x ∈ incs, 0 ≤ x ∧ x < 10) :
    List.Pairwise (fun a b => a ≤ b) (newTimer.width :: progressValues newTimer incs) ∧
    (∀ v ∈ progressValues newTimer incs, 0 ≤ v ∧ v ≤ 90 ∧ v < 100) ∧
    List.Pairwise (fun a b => a = 90 → b = 90) (progressValues newTimer incs) := by
  have h0 : newTimer.width ≤ 90 := by norm_num [newTimer]
  obtain ⟨hpw, hbd⟩ := progressValues_bounds incs newTimer h0 (fun x hx => (hincs x hx).1)
  have hw : newTimer.width = 0 := rfl
  refine ⟨hpw, ?_, ?_⟩
  · intro v hv
    have := hbd v hv
    rw [hw] at this
    exact ⟨this.1, this.2, by linarith [this.2]⟩
  · have htail : List.Pairwise (fun a b => a ≤ b) (progressValues newTimer incs) :=
      (List.pairwise_cons.mp hpw).2
    refine List.Pairwise.imp_of_mem ?_ htail
    intro a b _ hb hab ha
    have hb90 := (hbd b hb).2
    rw [ha] at hab
    exact le_antisymm hb90 hab

/-- Witness of `simulateProgress_values`: three ticks of increments 5, 7
and 9.5. -/
theorem simulateProgress_values_witness :
    (∀ x ∈ [(5 : ℚ), 7, 19 / 2], 0 ≤ x ∧ x < 10) ∧
    List.Pairwise (fun a b => a ≤ b)
      (newTimer.width :: progressValues newTimer [(5 : ℚ), 7, 19 / 2]) :=
  have hincs : ∀ x ∈ [(5 : ℚ), 7, 19 / 2], 0 ≤ x ∧ x < 10 := by
    intro x hx
    simp only [List.mem_cons, List.mem_singleton, List.not_mem_nil, or_false] at hx
    rcases hx with rfl | rfl | rfl <;> norm_num
  ⟨hincs, (simulateProgress_values _ hincs).1⟩

/-! ## Timers and the generation call: results -/

/-- Replacing a timer by one that is cleared whenever the old one was does
not raise the number of active timers. -/
theorem activeCount_set_le (l : List Timer) :
    ∀ (i : Nat) (t u : Timer), l.get? i = some t → (t.cleared = true → u.cleared = true) →
      ((l.set i u).filter fun x => !x.cleared).length ≤ (l.filter fun x => !x.cleared).length := by
  induction l with
  | nil => intro i t u h; simp at h
  | cons a rest ih =>
    intro i t u h hu
    cases i with
    | zero =>
      simp only [List.get?_cons_zero, Option.some.injEq] at h
      subst h
      simp only [List.set_cons_zero, List.filter_cons]
      cases ha : a.cleared <;> cases hc : u.cleared <;> simp
      exact absurd (hu ha) (by simp [hc])
    | succ j =>
      simp only [List.get?_cons_succ] at h
      have := ih j t u h hu
      simp only [List.set_cons_succ, List.filter_cons]
      split <;> simp <;> omega

/-- A tick clears a timer exactly when it was cleared already or its value
has reached 90. -/
theorem Timer.tick_cleared (t : Timer) (inc : ℚ) :
    (t.tick inc).cleared = true ↔ (t.cleared = true ∨ 90 ≤ t.width) := by
  unfold Timer.tick
  split
  · rename_i h; simp [h]
  · rename_i h
    split
    · rename_i h90; simp [h90]
    · rename_i h90
      simp [h, h90]

/-- The callback of a timer never raises the number of active timers. -/
theorem activeTimers_tick (s : State) (i : Nat) (inc : ℚ) :
    activeTimers (tick s i inc) ≤ activeTimers s := by
  unfold tick
  split
  · exact le_refl _
  · rename_i t ht
    have hset := activeCount_set_le s.timers i t (t.tick inc) ht
      (fun hc => (Timer.tick_cleared t inc).mpr (Or.inl hc))
    split
    · exact le_refl _
    · split
      · simpa [activeTimers] using hset
      · simpa [activeTimers] using hset

/-- Every handler other than a timer callback leaves the timers as they
are, except the submit handler, which appends a new one. -/
theorem handle_timers (s : State) (e : Event) (he : e.isTick = false) :
    (handle s e).timers = if e.isSubmit then s.timers ++ [newTimer] else s.timers := by
  cases e with
  | tabClick t => cases t <;> rfl
  | submit f => rfl
  | generateResolved r =>
    rcases r with _ | ⟨ok, body⟩
    · rfl
    · cases ok <;> cases body <;> rfl
  | previewBtnClick =>
    simp only [handle, previewBtnClick, Event.isSubmit]
    split <;> rfl
  | closeModalClick => rfl
  | cancelDeleteClick => rfl
  | windowClick onModal => cases onModal <;> rfl
  | confirmDeleteClick =>
    simp only [handle, confirmDeleteClick, Event.isSubmit]
    split <;> rfl
  | historyResolved r => simp [handle, historyResolved_timers, Event.isSubmit]
  | rowPreviewClick path => rfl
  | rowDeleteClick id => rfl
  | deleteResolved r =>
    rcases r with _ | ⟨ok, body⟩
    · rfl
    · cases ok <;> cases body <;> rfl
  | tick i inc => simp [Event.isTick] at he

/-- One event raises the number of active timers by at most one, and only
if it is a submit. -/
theorem activeTimers_handle (s : State) (e : Event) :
    activeTimers (handle s e) ≤ activeTimers s + (if e.isSubmit then 1 else 0) := by
  cases htick : e.isTick with
  | true =>
    cases e <;> simp [Event.isTick] at htick
    simpa [handle, Event.isSubmit] using activeTimers_tick s _ _
  | false =>
    have h := handle_timers s e htick
    cases hsub : e.isSubmit with
    | true =>
      rw [hsub] at h
      simp [activeTimers, h, newTimer, List.filter_append]
    | false =>
      rw [hsub] at h
      simp [activeTimers, h]

/-- Along any events the number of active timers grows by at most the
number of submits. -/
theorem activeTimers_run (evs : List Event) :
    ∀ s : State, activeTimers (run s evs) ≤ activeTimers s + (evs.filter Event.isSubmit).length := by
  induction evs with
  | nil => intro s; simp [run]
  | cons e rest ih =>
    intro s
    have h1 := activeTimers_handle s e
    have h2 := ih (handle s e)
    have h3 : run s (e :: rest) = run (handle s e) rest := rfl
    rw [h3]
    cases hsub : e.isSubmit
    · simp only [hsub, List.filter_cons] at h1 ⊢
      simp at h1 ⊢
      omega
    · simp only [hsub, List.filter_cons] at h1 ⊢
      simp at h1 ⊢
      omega

/-- C10 (as stated, refuted): after Scenario A has reached the result the
timer of its submit is still active, and its next tick, of increment 5,
writes 5 to the progress bar although the status is hidden; and after a
failed generation followed by a second submit two timers are active. -/
theorem timer_survives_resolution :
    (run (pageLoad formPage)
      [Event.submit formA,
       Event.generateResolved (Response.response true (some docD1))]).generationStatus = false ∧
    (run (pageLoad formPage)
      [Event.submit formA,
       Event.generateResolved (Response.response true (some docD1))]).generationResult = true ∧
    activeTimers (run (pageLoad formPage)
      [Event.submit formA,
       Event.generateResolved (Response.response true (some docD1))]) = 1 ∧
    (run (pageLoad formPage)
      [Event.submit formA,
       Event.generateResolved (Response.response true (some docD1))]).progressWidth = none ∧
    (run (pageLoad formPage)
      [Event.submit formA,
       Event.generateResolved (Response.response true (some docD1)),
       Event.tick 0 5]).progressWidth = some 5 ∧
    activeTimers (run (pageLoad formPage)
      [Event.submit formA,
       Event.generateResolved Response.networkError,
       Event.submit formA]) = 2 := by
  refine ⟨rfl, rfl, by decide, rfl, ?_, by decide⟩
  norm_num [run, handle, pageLoad, loadHistory, submit, simulateProgress, generateResolved,
    generateSucceeded, tick, Timer.tick]

/-- The callback of timer `i` replaces that timer by its ticked value and
leaves every other timer as it is. -/
theorem tick_timers (s : State) (i : Nat) (inc : ℚ) :
    (∀ j, j ≠ i → (tick s i inc).timers.get? j = s.timers.get? j) ∧
    (tick s i inc).timers.get? i = (s.timers.get? i).map fun t => t.tick inc := by
  unfold tick
  cases ht : s.timers.get? i with
  | none =>
    have hge : s.timers.length ≤ i := List.get?_eq_none.mp ht
    simp [hge]
  | some t =>
    have hlt : i < s.timers.length := by
      rcases Nat.lt_or_ge i s.timers.length with h | h
      · exact h
      · rw [List.get?_eq_none.mpr h] at ht
        exact absurd ht (by simp)
    by_cases hc : t.cleared = true
    · have htick : t.tick inc = t := by simp [Timer.tick, hc]
      have hget : s.timers[i]? = some t := by simpa using ht
      simp [hc, htick, hget]
    · have hset : ∀ j, j ≠ i →
          (s.timers.set i (t.tick inc)).get? j = s.timers.get? j := by
        intro j hj
        simp only [List.get?_eq_getElem?]
        exact List.getElem?_set_ne (Ne.symm hj)
      have hself : (s.timers.set i (t.tick inc)).get? i = some (t.tick inc) := by
        simp only [List.get?_eq_getElem?]
        exact List.getElem?_set_eq_of_lt _ hlt
      by_cases h90 : t.width ≥ 90
      · simp only [hc, h90, if_true, if_false, Bool.false_eq_true, Option.map_some']
        exact ⟨hset, hself⟩
      · simp only [hc, h90, if_false, Bool.false_eq_true, Option.map_some']
        exact ⟨hset, hself⟩

/-- C10 (amended): resolution of the generation call, success or failure,
cancels no timer and leaves the progress value as it is; the callback of
timer `i` replaces timer `i` by its ticked value and leaves every other
timer as it is, a tick cancels its timer exactly when the timer was
cancelled already or its value has reached 90, and every handler other
than a timer callback leaves the existing timers as they are (the submit
handler appends a new one); the ticks of a cancelled timer change
nothing; so that in every reachable state the number of active timers is
at most the number of submits handled. -/
theorem timers_independent_of_view :
    (∀ (s : State) (r : Response Document),
      (generateResolved s r).timers = s.timers ∧
      (generateResolved s r).progressWidth = s.progressWidth) ∧
    (∀ (t : Timer) (inc : ℚ), (t.tick inc).cleared = true ↔ (t.cleared = true ∨ 90 ≤ t.width)) ∧
    (∀ (s : State) (i j : Nat) (inc : ℚ), j ≠ i →
      (handle s (Event.tick i inc)).timers.get? j = s.timers.get? j) ∧
    (∀ (s : State) (i : Nat) (inc : ℚ),
      (handle s (Event.tick i inc)).timers.get? i
        = (s.timers.get? i).map fun t => t.tick inc) ∧
    (∀ (s : State) (e : Event), e.isTick = false →
      (handle s e).timers = if e.isSubmit then s.timers ++ [newTimer] else s.timers) ∧
    (∀ (s : State) (i : Nat) (inc : ℚ) (t : Timer),
      s.timers.get? i = some t → t.cleared = true → handle s (Event.tick i inc) = s) ∧
    (∀ (m : Markup) (evs : List Event),
      activeTimers (run (pageLoad m) evs) ≤ (evs.filter Event.isSubmit).length) := by
  refine ⟨?_, Timer.tick_cleared, ?_, ?_, handle_timers, ?_, ?_⟩
  · intro s r
    rcases r with _ | ⟨ok, body⟩
    · exact ⟨rfl, rfl⟩
    · cases ok <;> cases body <;> exact ⟨rfl, rfl⟩
  · intro s i j inc hj
    exact (tick_timers s i inc).1 j hj
  · intro s i inc
    exact (tick_timers s i inc).2
  · intro s i inc t ht hc
    show tick s i inc = s
    unfold tick
    rw [ht]
    simp [hc]
  · intro m evs
    have h := activeTimers_run evs (pageLoad m)
    have h0 : activeTimers (pageLoad m) = 0 := rfl
    omega

/-- Witness of `timers_independent_of_view`: with two timers running, a
tick of the first leaves the second alone; closing the modal leaves the
timer of a submitted page alone; and a cleared timer does not fire. -/
theorem timers_independent_of_view_witness :
    (handle (submit (submit (pageLoad formPage) formA) formA) (Event.tick 0 5)).timers.get? 1
      = (submit (submit (pageLoad formPage) formA) formA).timers.get? 1 ∧
    (handle (submit (pageLoad formPage) formA) Event.closeModalClick).timers
      = (submit (pageLoad formPage) formA).timers ∧
    handle pageWithClearedTimer (Event.tick 0 5) = pageWithClearedTimer :=
  ⟨timers_independent_of_view.2.2.1 (submit (submit (pageLoad formPage) formA) formA) 0 1 5
      (by decide),
   timers_independent_of_view.2.2.2.2.1 (submit (pageLoad formPage) formA)
      Event.closeModalClick rfl,
   timers_independent_of_view.2.2.2.2.2.1 pageWithClearedTimer 0 5 ⟨90, true⟩ rfl rfl⟩

end MainJs
